import Mathlib

/-!
Verification development for the ProofGate SDK client.

The client is a thin HTTP wrapper: it merges a caller configuration over
documented defaults, builds a JSON body for the validation endpoint, and
maps transport outcomes into a fixed error taxonomy.  The definitions
below are a shallow embedding of the library source (src/index.ts of the
repository).  JavaScript-specific behavior is modelled explicitly:

* optional configuration keys are represented as nested options, where
  `none` means the key is absent and `some none` means the key is present
  with the value `undefined` (this distinction matters for object spread);
* the JS operator `a || b` on strings and numbers is modelled by helpers
  that treat the empty string, the number 0 and `undefined` as falsy;
* `JSON.stringify` of a flat object is modelled as the ordered list of
  key/value pairs with `undefined`-valued keys dropped;
* the transport (global `fetch` plus the timeout timer) is modelled as a
  function from the call index to an abstract outcome: a response with a
  status and a JSON parse result, a transport failure carrying the thrown
  error name and message, or expiry of the armed timeout.
-/

-- =============================================================================
-- JavaScript value helpers
-- =============================================================================

/-- Truthiness-based `a || b` for a possibly-undefined string against a
string default: `undefined` and the empty string are falsy. -/
def jsOrStr (a : Option String) (b : String) : String :=
  match a with
  | none => b
  | some s => if s = "" then b else s

/-- Truthiness-based `a || b` where both sides are possibly-undefined
strings (used for `request.guardrailId || this.config.guardrailId`). -/
def jsOrStrOpt (a : Option String) (b : Option String) : Option String :=
  match a with
  | none => b
  | some s => if s = "" then b else some s

/-- Truthiness-based `a || b` where both sides are possibly-undefined
numbers: `undefined` and 0 are falsy (used for
`request.chainId || this.config.chainId`). -/
def jsOrIntOpt (a : Option Int) (b : Option Int) : Option Int :=
  match a with
  | none => b
  | some n => if n = 0 then b else some n

/-- JS falsiness of a possibly-undefined string, as tested by `!x`:
`undefined` and the empty string are falsy. -/
def jsFalsyStr (a : Option String) : Bool :=
  match a with
  | none => true
  | some s => s == ""

/-- Value of a possibly-undefined string when interpolated or coerced to a
string by JavaScript (template literals and header values render
`undefined` as the text "undefined"). -/
def jsTemplateStr (a : Option String) : String :=
  match a with
  | none => "undefined"
  | some s => s

/-- The string content of a possibly-undefined string, used only after a
truthiness guard has ruled out `undefined`. -/
def jsStringValue (a : Option String) : String :=
  match a with
  | none => ""
  | some s => s

/-- Character-list test that the second list starts the first; executable
model of the JS method startsWith used by the constructor. -/
def listStartsWith : List Char → List Char → Bool
  | _, [] => true
  | [], _ :: _ => false
  | c :: cs, d :: ds => c == d && listStartsWith cs ds

/-- The JS string method startsWith, on the underlying character lists. -/
def strStartsWith (s pre : String) : Bool :=
  listStartsWith s.data pre.data

-- =============================================================================
-- Data model (src/index.ts, lines 36-196)
-- =============================================================================

/-- ProofGateConfig (source lines 39-50).  Every optional key is a nested
option: the outer layer records whether the key is present on the object
at all, the inner layer records whether its value is `undefined`.  The
required key apiKey is a single option, `none` standing for a caller that
omitted it despite the static type. -/
structure ProofGateConfig where
  apiKey : Option String
  baseUrl : Option (Option String)
  chainId : Option (Option Int)
  guardrailId : Option (Option String)
  timeout : Option (Option Int)
deriving DecidableEq

/-- The merged configuration stored in the client field `this.config`
(source line 225): every key present, possibly with value `undefined`. -/
structure MergedConfig where
  apiKey : Option String
  baseUrl : Option String
  chainId : Option Int
  guardrailId : Option String
  timeout : Option Int
deriving DecidableEq

/-- ValidateRequest (source lines 52-65). -/
structure ValidateRequest where
  from_ : String
  to_ : String
  data : String
  value : Option String
  guardrailId : Option String
  chainId : Option Int
deriving DecidableEq

/-- ValidationCheck (source lines 92-101); enumerated string unions are
modelled as strings, matching the untyped runtime values. -/
structure ValidationCheck where
  name : String
  passed : Bool
  details : String
  severity : String
deriving DecidableEq

/-- ValidateResponse (source lines 67-90). -/
structure ValidateResponse where
  validationId : String
  result : String
  reason : String
  evidenceUri : String
  safe : Bool
  checks : List ValidationCheck
  chainId : Int
  authenticated : Bool
  tier : String
  backend : String
  onChainRecorded : Bool
deriving DecidableEq

/-- Validation statistics nested in AgentCheckResponse (source lines
121-126); passRate is a JS number that may be fractional. -/
structure AgentStats where
  totalValidations : Int
  passedValidations : Int
  failedValidations : Int
  passRate : Rat
deriving DecidableEq

/-- Registration info nested in AgentCheckResponse (source lines 128-131). -/
structure AgentRegistration where
  name : Option String
  registeredAt : String
deriving DecidableEq

/-- AgentCheckResponse (source lines 103-134). -/
structure AgentCheckResponse where
  wallet : String
  isRegistered : Bool
  verificationStatus : String
  verificationMessage : String
  trustScore : Int
  tier : String
  tierEmoji : String
  tierName : String
  stats : AgentStats
  registration : Option AgentRegistration
  recommendation : String
deriving DecidableEq

/-- Transaction details nested in EvidenceResponse (source lines 144-149). -/
structure EvidenceTransaction where
  from_ : String
  to_ : String
  data : String
  value : String
deriving DecidableEq

/-- Result snapshot nested in EvidenceResponse (source lines 151-155). -/
structure EvidenceResult where
  status : String
  reason : String
  safe : Bool
deriving DecidableEq

/-- Agent summary nested in EvidenceResponse (source lines 159-163). -/
structure EvidenceAgent where
  wallet : String
  name : Option String
  verified : Bool
deriving DecidableEq

/-- Proof metadata nested in EvidenceResponse (source lines 165-170). -/
structure EvidenceProof where
  authenticated : Bool
  onChainRecorded : Bool
  batchId : Option String
  recordedAt : Option String
deriving DecidableEq

/-- EvidenceResponse (source lines 136-171). -/
structure EvidenceResponse where
  validationId : String
  timestamp : String
  chainId : Int
  transaction : EvidenceTransaction
  result : EvidenceResult
  guardrailId : Option String
  agent : EvidenceAgent
  proof : EvidenceProof
deriving DecidableEq

/-- The anonymous usage-snapshot shape returned by getUsage (source lines
369-375). -/
structure UsageResponse where
  wallet : String
  tier : String
  validations_used : Int
  validations_limit : Int
  daily_spent_wei : String
deriving DecidableEq

/-- ProofGateError (source lines 186-196): message, machine code, optional
HTTP status, optional attached validation result. -/
structure ProofGateError where
  message : String
  code : String
  statusCode : Option Nat
  validationResult : Option ValidateResponse
deriving DecidableEq

-- =============================================================================
-- Constructor (src/index.ts, lines 227-248)
-- =============================================================================

/-- Object-spread semantics for one optional key of the configuration:
`«spread of defaults then config»` keeps the default only when the key is
entirely absent from the caller object; a key present with value
`undefined` overrides the default with `undefined`. -/
def spreadField {α : Type} (dflt : α) (v : Option (Option α)) : Option α :=
  match v with
  | none => some dflt
  | some x => x

/-- Spread semantics for guardrailId, a key the defaults object does not
contain: the merged value is whatever the caller object carries, or
`undefined` when the key is absent. -/
def spreadFieldNoDefault {α : Type} (v : Option (Option α)) : Option α :=
  match v with
  | none => none
  | some x => x

/-- The constructor (source lines 227-248): reject a falsy apiKey with
code MISSING_API_KEY, reject an apiKey without the literal sequence pg_
at its start with code INVALID_API_KEY, otherwise store the spread-merge
of the caller configuration over the documented defaults. -/
def ProofGate.construct (config : ProofGateConfig) : Except ProofGateError MergedConfig :=
  if jsFalsyStr config.apiKey then
    .error (ProofGateError.mk
      "API key is required. Get one at https://www.proofgate.xyz/dashboard"
      "MISSING_API_KEY" none none)
  else if ¬ strStartsWith (jsStringValue config.apiKey) "pg_" then
    .error (ProofGateError.mk
      "Invalid API key format. Keys start with \"pg_\""
      "INVALID_API_KEY" none none)
  else
    .ok (MergedConfig.mk
      config.apiKey
      (spreadField "https://www.proofgate.xyz/api" config.baseUrl)
      (spreadField 56 config.chainId)
      (spreadFieldNoDefault config.guardrailId)
      (spreadField 30000 config.timeout))

/-- Decidable equality for Except values, used to evaluate the model at
concrete inputs. -/
instance exceptDecEq {ε α : Type} [DecidableEq ε] [DecidableEq α] :
    DecidableEq (Except ε α) := fun a b =>
  match a, b with
  | .ok x, .ok y =>
    match decEq x y with
    | isTrue h => isTrue (by rw [h])
    | isFalse h => isFalse (by intro hc; cases hc; exact h rfl)
  | .error x, .error y =>
    match decEq x y with
    | isTrue h => isTrue (by rw [h])
    | isFalse h => isFalse (by intro hc; cases hc; exact h rfl)
  | .ok _, .error _ => isFalse (by intro hc; cases hc)
  | .error _, .ok _ => isFalse (by intro hc; cases hc)

example : (ProofGate.construct
    (ProofGateConfig.mk (some "pg_abc") none none none none)) =
    .ok (MergedConfig.mk (some "pg_abc") (some "https://www.proofgate.xyz/api")
      (some 56) none (some 30000)) := by
  decide

-- =============================================================================
-- Request body for validate (src/index.ts, lines 274-288)
-- =============================================================================

/-- The JS object literal built by validate (source lines 277-284), before
serialization: keys with an undefined value are kept here and dropped by
JSON.stringify. -/
structure ValidateBody where
  from_ : String
  to_ : String
  data : String
  value : String
  guardrailId : Option String
  chainId : Option Int
deriving DecidableEq

/-- Construction of the validate body (source lines 277-284): from, to and
data are copied verbatim; value is `request.value || "0"`; guardrailId is
`request.guardrailId || this.config.guardrailId`; chainId is
`request.chainId || this.config.chainId`. -/
def ProofGate.validateBody (cfg : MergedConfig) (request : ValidateRequest) : ValidateBody :=
  ValidateBody.mk
    request.from_
    request.to_
    request.data
    (jsOrStr request.value "0")
    (jsOrStrOpt request.guardrailId cfg.guardrailId)
    (jsOrIntOpt request.chainId cfg.chainId)

/-- A primitive JSON value appearing in the validate body. -/
inductive JsonVal : Type
  | str : String → JsonVal
  | num : Int → JsonVal
deriving DecidableEq

/-- JSON.stringify of the validate body object: the ordered key/value list
of the object literal, with keys whose value is `undefined` dropped (the
behavior of JSON.stringify on object properties). -/
def ValidateBody.json (b : ValidateBody) : List (String × JsonVal) :=
  [("from", JsonVal.str b.from_), ("to", JsonVal.str b.to_),
   ("data", JsonVal.str b.data), ("value", JsonVal.str b.value)]
  ++ (match b.guardrailId with
      | none => []
      | some g => [("guardrailId", JsonVal.str g)])
  ++ (match b.chainId with
      | none => []
      | some c => [("chainId", JsonVal.num c)])

-- =============================================================================
-- Shared request routine (src/index.ts, lines 382-424)
-- =============================================================================

/-- The JSON body of an HTTP response as seen by the client code after
`await response.json()`: the value cast to the expected type parameter,
together with the untyped error and message fields read on the failure
path (`data.error`, `data.message`). -/
structure ParsedJson (α : Type) where
  asTyped : α
  errorField : Option String
  messageField : Option String
deriving DecidableEq

/-- Outcome of `await response.json()`: either the parsed JSON or a thrown
parse error carrying its message. -/
inductive ParseResult (α : Type) : Type
  | failed : String → ParseResult α
  | parsed : ParsedJson α → ParseResult α
deriving DecidableEq

/-- Abstract outcome of one `fetch` call under the armed timeout: a
response with an HTTP status and a body parse result, a transport-level
failure carrying the thrown error name and message, or expiry of the
timeout (which aborts the fetch with an error named AbortError). -/
inductive TransportOutcome (α : Type) : Type
  | response : Nat → ParseResult α → TransportOutcome α
  | failure : String → String → TransportOutcome α
  | timeout : TransportOutcome α
deriving DecidableEq

/-- One HTTP request as handed to fetch (source lines 391-399): the
assembled URL, the method, the two headers, and the serialized JSON body
when present. -/
structure HttpCall where
  url : String
  method : String
  headers : List (String × String)
  body : Option (List (String × JsonVal))
deriving DecidableEq

/-- Result of running one client operation: the returned value or raised
error, the list of HTTP requests sent so far (the operation appends the
requests it issued), and whether clearTimeout ran for the timer armed by
this call. -/
structure CallResult (α : Type) where
  result : Except ProofGateError α
  sent : List HttpCall
  timerCleared : Bool

/-- The message chain for a non-success response (source line 405):
`data.error || data.message || "HTTP <status>"` under JS truthiness. -/
def apiErrorMessage (status : Nat) (errorField messageField : Option String) : String :=
  jsOrStr errorField (jsOrStr messageField ("HTTP " ++ toString status))

/-- The private request routine (source lines 382-424).  URL assembly is
`baseUrl + path`; the method is `options.method || "GET"`; the headers are
the JSON content type and the API key; the armed timer is cleared on every
path by the finally block, recorded in the timerCleared field.  The
outcome of this call is `transport n` where n is the number of requests
already sent.  Error mapping: timeout or a failure named AbortError gives
TIMEOUT; a body that fails to parse gives NETWORK_ERROR carrying the parse
error message (the thrown parse error is not a ProofGateError and is not
named AbortError); a non-2xx status gives API_ERROR with the status and
the error/message fallback chain; any other failure gives NETWORK_ERROR
with the thrown message. -/
def ProofGate.request {α : Type} (cfg : MergedConfig) (path : String)
    (method : Option String) (body : Option (List (String × JsonVal)))
    (transport : Nat → TransportOutcome α) (sent : List HttpCall) : CallResult α :=
  let url := jsTemplateStr cfg.baseUrl ++ path
  let call := HttpCall.mk url (jsOrStr method "GET")
    [("Content-Type", "application/json"), ("X-API-Key", jsTemplateStr cfg.apiKey)]
    body
  let result : Except ProofGateError α :=
    match transport sent.length with
    | .timeout =>
        .error (ProofGateError.mk "Request timeout" "TIMEOUT" none none)
    | .failure name msg =>
        if name = "AbortError" then
          .error (ProofGateError.mk "Request timeout" "TIMEOUT" none none)
        else
          .error (ProofGateError.mk msg "NETWORK_ERROR" none none)
    | .response status pbody =>
        match pbody with
        | .failed msg => .error (ProofGateError.mk msg "NETWORK_ERROR" none none)
        | .parsed d =>
            if 200 ≤ status ∧ status ≤ 299 then
              .ok d.asTyped
            else
              .error (ProofGateError.mk
                (apiErrorMessage status d.errorField d.messageField)
                "API_ERROR" (some status) none)
  CallResult.mk result (sent ++ [call]) true

-- =============================================================================
-- Public operations (src/index.ts, lines 274-377)
-- =============================================================================

/-- validate (source lines 274-288): a single POST to /validate with the
serialized body; the parsed response is returned as is. -/
def ProofGate.validate (cfg : MergedConfig) (request : ValidateRequest)
    (transport : Nat → TransportOutcome ValidateResponse) (sent : List HttpCall) :
    CallResult ValidateResponse :=
  ProofGate.request cfg "/validate" (some "POST")
    (some (ProofGate.validateBody cfg request).json) transport sent

/-- validateOrThrow (source lines 310-323): call validate once; if the
result is unsafe, raise VALIDATION_FAILED carrying the reason as message
and the full result attached; otherwise return the result unchanged. -/
def ProofGate.validateOrThrow (cfg : MergedConfig) (request : ValidateRequest)
    (transport : Nat → TransportOutcome ValidateResponse) (sent : List HttpCall) :
    CallResult ValidateResponse :=
  let res := ProofGate.validate cfg request transport sent
  match res.result with
  | .ok result =>
      if result.safe then res
      else
        CallResult.mk
          (.error (ProofGateError.mk result.reason "VALIDATION_FAILED" none (some result)))
          res.sent res.timerCleared
  | .error _ => res

/-- The path built by checkAgent (source line 343): raw template
interpolation of the wallet into the query string, with no escaping. -/
def ProofGate.checkAgentPath (wallet : String) : String :=
  "/agents/check?wallet=" ++ wallet

/-- checkAgent (source lines 342-344): a GET with default options. -/
def ProofGate.checkAgent (cfg : MergedConfig) (wallet : String)
    (transport : Nat → TransportOutcome AgentCheckResponse) (sent : List HttpCall) :
    CallResult AgentCheckResponse :=
  ProofGate.request cfg (ProofGate.checkAgentPath wallet) none none transport sent

/-- The path built by getEvidence (source line 360): raw template
interpolation of the validation id into the path, with no escaping. -/
def ProofGate.getEvidencePath (validationId : String) : String :=
  "/evidence/" ++ validationId

/-- getEvidence (source lines 359-361): a GET with default options. -/
def ProofGate.getEvidence (cfg : MergedConfig) (validationId : String)
    (transport : Nat → TransportOutcome EvidenceResponse) (sent : List HttpCall) :
    CallResult EvidenceResponse :=
  ProofGate.request cfg (ProofGate.getEvidencePath validationId) none none transport sent

/-- getUsage (source lines 369-377): a GET with default options. -/
def ProofGate.getUsage (cfg : MergedConfig) (wallet : String)
    (transport : Nat → TransportOutcome UsageResponse) (sent : List HttpCall) :
    CallResult UsageResponse :=
  ProofGate.request cfg ("/validate?wallet=" ++ wallet) none none transport sent

-- =============================================================================
-- Server-side percent decoding, for the URL-escaping claim
-- =============================================================================

/-- Numeric value of a hexadecimal digit, if any. -/
def hexVal (c : Char) : Option Nat :=
  if ('0' ≤ c ∧ c ≤ '9') then some (c.toNat - 48)
  else if ('a' ≤ c ∧ c ≤ 'f') then some (c.toNat - 87)
  else if ('A' ≤ c ∧ c ≤ 'F') then some (c.toNat - 70)
  else none

/-- Standard percent decoding of a URL component, as performed by the
receiving server on a path segment or query value: a percent sign followed
by two hexadecimal digits becomes the denoted byte, everything else passes
through. -/
def percentDecodeList : List Char → List Char
  | [] => []
  | [c] => [c]
  | [c, d] => [c, d]
  | c :: h1 :: h2 :: rest =>
      if c = '%' then
        match hexVal h1, hexVal h2 with
        | some a, some b => Char.ofNat (16 * a + b) :: percentDecodeList rest
        | _, _ => c :: percentDecodeList (h1 :: h2 :: rest)
      else c :: percentDecodeList (h1 :: h2 :: rest)

/-- Percent decoding on strings. -/
def percentDecode (s : String) : String :=
  String.mk (percentDecodeList s.data)

example : percentDecode "a%20b" = "a b" := by decide
example : percentDecode "val_abc123" = "val_abc123" := by decide

-- =============================================================================
-- Heap-instrumented steps, for the frame claim
-- =============================================================================

/-- A caller-visible JS object relevant to the client: a caller
configuration, the merged configuration, a validate request, or a
validate body. -/
inductive JsObj : Type
  | cfgIn : ProofGateConfig → JsObj
  | merged : MergedConfig → JsObj
  | valReq : ValidateRequest → JsObj
  | valBody : ValidateBody → JsObj
deriving DecidableEq

/-- A heap of JS objects, addressed by naturals. -/
def JsHeap : Type := Nat → Option JsObj

/-- Allocation or update of one heap cell. -/
def writeHeap (h : JsHeap) (addr : Nat) (v : JsObj) : JsHeap :=
  fun x => if x = addr then some v else h x

/-- Heap-instrumented constructor (source lines 227-248): the object
spread `«defaults, then config»` reads the caller object and allocates a
new object for the merged configuration at a fresh address; the only heap
write is that allocation.  The caller object itself is never assigned to. -/
def ProofGate.constructHeap (h : JsHeap) (config : ProofGateConfig) (fresh : Nat) :
    Except ProofGateError (JsHeap × Nat) :=
  match ProofGate.construct config with
  | .error e => .error e
  | .ok m => .ok (writeHeap h fresh (JsObj.merged m), fresh)

/-- Heap-instrumented body construction inside validate (source lines
277-284): the body object literal is a fresh allocation whose fields are
read from the request object and the merged configuration; the request
object is never assigned to. -/
def ProofGate.validateBodyHeap (h : JsHeap) (cfg : MergedConfig)
    (request : ValidateRequest) (fresh : Nat) : JsHeap × Nat :=
  (writeHeap h fresh (JsObj.valBody (ProofGate.validateBody cfg request)), fresh)

-- =============================================================================
-- Claim C1
-- =============================================================================

/-- C1 (confirmed): validateOrThrow is validate followed by a client-side
check.  It issues exactly the single network call of validate (the sent
list grows by exactly one request and validateOrThrow adds none beyond
it); when the response has safe = false it raises an error with code
VALIDATION_FAILED whose message is the response reason and whose attached
validation result is the full response; when safe = true it returns the
response unchanged; validate errors propagate unchanged. -/
theorem C1_validateOrThrow_equiv (cfg : MergedConfig) (r : ValidateRequest)
    (transport : Nat → TransportOutcome ValidateResponse) (sent : List HttpCall) :
    (ProofGate.validateOrThrow cfg r transport sent).sent =
      (ProofGate.validate cfg r transport sent).sent
  ∧ (ProofGate.validate cfg r transport sent).sent.length = sent.length + 1
  ∧ (∀ resp, (ProofGate.validate cfg r transport sent).result = .ok resp →
      (resp.safe = false →
        (ProofGate.validateOrThrow cfg r transport sent).result =
          .error (ProofGateError.mk resp.reason "VALIDATION_FAILED" none (some resp)))
      ∧ (resp.safe = true →
        (ProofGate.validateOrThrow cfg r transport sent).result = .ok resp))
  ∧ (∀ e, (ProofGate.validate cfg r transport sent).result = .error e →
      (ProofGate.validateOrThrow cfg r transport sent).result = .error e) := by
  refine ⟨?_, ?_, ?_, ?_⟩
  · simp only [ProofGate.validateOrThrow]
    cases hx : (ProofGate.validate cfg r transport sent).result with
    | ok resp => cases hs : resp.safe <;> simp [hs]
    | error e => rfl
  · simp [ProofGate.validate, ProofGate.request]
  · intro resp hok
    constructor
    · intro hs
      simp only [ProofGate.validateOrThrow]
      rw [hok]
      simp [hs]
    · intro hs
      simp only [ProofGate.validateOrThrow]
      rw [hok]
      simp [hs, hok]
  · intro e he
    simp only [ProofGate.validateOrThrow]
    rw [he]
    exact he

/-- A concrete unsafe validation response used to exercise C1. -/
def c1resp : ValidateResponse :=
  ValidateResponse.mk "val_001" "FAIL" "Infinite approval detected"
    "https://www.proofgate.xyz/evidence/val_001" false [] 56 true "free" "local" false

/-- A transport answering every call with HTTP 200 and the unsafe
response c1resp. -/
def c1transport : Nat → TransportOutcome ValidateResponse :=
  fun _ => TransportOutcome.response 200
    (ParseResult.parsed (ParsedJson.mk c1resp none none))

/-- A concrete merged configuration used to exercise C1. -/
def c1cfg : MergedConfig :=
  MergedConfig.mk (some "pg_c1") (some "https://www.proofgate.xyz/api")
    (some 56) none (some 30000)

/-- A concrete request used to exercise C1. -/
def c1req : ValidateRequest :=
  ValidateRequest.mk "0xagent" "0xtarget" "0xdata" none none none

/-- Witness for C1: at a mocked safe = false response, validateOrThrow
raises VALIDATION_FAILED carrying the reason and the full response, and
issues exactly one network call. -/
theorem C1_validateOrThrow_equiv_witness :
    (ProofGate.validateOrThrow c1cfg c1req c1transport []).result =
      .error (ProofGateError.mk c1resp.reason "VALIDATION_FAILED" none (some c1resp))
    ∧ (ProofGate.validate c1cfg c1req c1transport []).sent.length =
        ([] : List HttpCall).length + 1 :=
  ⟨((C1_validateOrThrow_equiv c1cfg c1req c1transport []).2.2.1 c1resp (by decide)).1 (by decide),
   (C1_validateOrThrow_equiv c1cfg c1req c1transport []).2.1⟩

-- =============================================================================
-- Claim C2
-- =============================================================================

/-- Configuration carrying an empty credential, used against C2. -/
def c2cfgEmpty : ProofGateConfig :=
  ProofGateConfig.mk (some "") none none none none

/-- C2 counterexample: for an empty credential the construction-time error
carries the code MISSING_API_KEY, not MISSING_CREDENTIAL as the claim
states. -/
theorem C2_counterexample :
    ProofGate.construct c2cfgEmpty =
      .error (ProofGateError.mk
        "API key is required. Get one at https://www.proofgate.xyz/dashboard"
        "MISSING_API_KEY" none none)
    ∧ "MISSING_API_KEY" ≠ "MISSING_CREDENTIAL" :=
  ⟨by decide, by decide⟩

/-- C2 (amended): for every configuration whose credential is empty or
absent, construction fails immediately with error code MISSING_API_KEY;
for every configuration whose credential is non-empty but does not start
with the literal pg_, construction fails with error code INVALID_API_KEY;
no other configuration is rejected at construction. -/
theorem C2_construct_error_codes (config : ProofGateConfig) :
    (jsFalsyStr config.apiKey = true →
      ProofGate.construct config =
        .error (ProofGateError.mk
          "API key is required. Get one at https://www.proofgate.xyz/dashboard"
          "MISSING_API_KEY" none none))
  ∧ (jsFalsyStr config.apiKey = false →
      strStartsWith (jsStringValue config.apiKey) "pg_" = false →
      ProofGate.construct config =
        .error (ProofGateError.mk
          "Invalid API key format. Keys start with \"pg_\""
          "INVALID_API_KEY" none none))
  ∧ (jsFalsyStr config.apiKey = false →
      strStartsWith (jsStringValue config.apiKey) "pg_" = true →
      ∃ m, ProofGate.construct config = .ok m) := by
  refine ⟨fun h1 => ?_, fun h1 h2 => ?_, fun h1 h2 => ?_⟩
  · simp [ProofGate.construct, h1]
  · simp [ProofGate.construct, h1, h2]
  · exact ⟨MergedConfig.mk config.apiKey
      (spreadField "https://www.proofgate.xyz/api" config.baseUrl)
      (spreadField 56 config.chainId)
      (spreadFieldNoDefault config.guardrailId)
      (spreadField 30000 config.timeout),
      by simp [ProofGate.construct, h1, h2]⟩

/-- Configuration whose credential has the wrong format, for the C2
witness. -/
def c2cfgBadFormat : ProofGateConfig :=
  ProofGateConfig.mk (some "sk_live_123") none none none none

/-- Witness for C2 (amended): a credential not starting with pg_ is
rejected at construction with INVALID_API_KEY. -/
theorem C2_construct_error_codes_witness :
    ProofGate.construct c2cfgBadFormat =
      .error (ProofGateError.mk
        "Invalid API key format. Keys start with \"pg_\""
        "INVALID_API_KEY" none none) :=
  (C2_construct_error_codes c2cfgBadFormat).2.1 (by decide) (by decide)

-- =============================================================================
-- Claim C3
-- =============================================================================

/-- Input configuration without any guardrail default, for the C3
counterexample. -/
def c3cfgIn : ProofGateConfig :=
  ProofGateConfig.mk (some "pg_c3") none none none none

/-- The merged configuration produced from c3cfgIn. -/
def c3m : MergedConfig :=
  MergedConfig.mk (some "pg_c3") (some "https://www.proofgate.xyz/api")
    (some 56) none (some 30000)

/-- A request carrying only the three required fields, for the C3
counterexample. -/
def c3req : ValidateRequest :=
  ValidateRequest.mk "0xaaa" "0xbbb" "0xccc" none none none

/-- An inert transport, sufficient to observe the transmitted request. -/
def c3transport : Nat → TransportOutcome ValidateResponse :=
  fun _ => TransportOutcome.timeout

/-- C3 counterexample: for a client constructed without a guardrail
default and a request omitting guardrailId, the transmitted JSON body has
only five fields; the guardrailId key is dropped by serialization, so the
body does not contain exactly the six claimed fields. -/
theorem C3_counterexample :
    ProofGate.construct c3cfgIn = .ok c3m
  ∧ (ProofGate.validate c3m c3req c3transport []).sent =
      [HttpCall.mk "https://www.proofgate.xyz/api/validate" "POST"
        [("Content-Type", "application/json"), ("X-API-Key", "pg_c3")]
        (some [("from", JsonVal.str "0xaaa"), ("to", JsonVal.str "0xbbb"),
               ("data", JsonVal.str "0xccc"), ("value", JsonVal.str "0"),
               ("chainId", JsonVal.num 56)])]
  ∧ ("guardrailId" ∉
      ((ProofGate.validateBody c3m c3req).json.map Prod.fst))
  ∧ ((ProofGate.validateBody c3m c3req).json.map Prod.fst).length = 5 :=
  ⟨by decide, by decide, by decide, by decide⟩

/-- C3 (amended): validate transmits a POST body to the validate endpoint
whose keys are from, to, data, value, then guardrailId when defined, then
chainId when defined; from, to and data are the request values verbatim;
an omitted value transmits as the string 0; an omitted chainId or
guardrailId falls back to the merged configuration of the client; when
the configuration defines no guardrailId either, serialization drops the
key and the body has five fields; and for every accepted construction
the merged configuration carries the caller override when the key was
supplied, no guardrail default when that key was absent, and the library
chain id default 56 only when that key was absent — so the transmitted
fallbacks are the configured defaults of the client, caller-supplied
construction-time overrides included, not values hardcoded in the
library. -/
theorem C3_validate_body (cfg : MergedConfig) (r : ValidateRequest)
    (transport : Nat → TransportOutcome ValidateResponse) (sent : List HttpCall) :
    (ProofGate.validate cfg r transport sent).sent =
      sent ++ [HttpCall.mk (jsTemplateStr cfg.baseUrl ++ "/validate") "POST"
        [("Content-Type", "application/json"), ("X-API-Key", jsTemplateStr cfg.apiKey)]
        (some (ProofGate.validateBody cfg r).json)]
  ∧ (ProofGate.validateBody cfg r).from_ = r.from_
  ∧ (ProofGate.validateBody cfg r).to_ = r.to_
  ∧ (ProofGate.validateBody cfg r).data = r.data
  ∧ (r.value = none → (ProofGate.validateBody cfg r).value = "0")
  ∧ (r.chainId = none → (ProofGate.validateBody cfg r).chainId = cfg.chainId)
  ∧ (r.guardrailId = none → (ProofGate.validateBody cfg r).guardrailId = cfg.guardrailId)
  ∧ ((ProofGate.validateBody cfg r).json.map Prod.fst =
      ["from", "to", "data", "value"]
      ++ (match (ProofGate.validateBody cfg r).guardrailId with
          | none => [] | some _ => ["guardrailId"])
      ++ (match (ProofGate.validateBody cfg r).chainId with
          | none => [] | some _ => ["chainId"]))
  ∧ ((ProofGate.validateBody cfg r).guardrailId = none →
      ("guardrailId" ∉ (ProofGate.validateBody cfg r).json.map Prod.fst
       ∧ ((ProofGate.validateBody cfg r).chainId ≠ none →
          ((ProofGate.validateBody cfg r).json.map Prod.fst).length = 5)))
  ∧ (∀ config, ProofGate.construct config = .ok cfg →
      (∀ g, config.guardrailId = some (some g) → cfg.guardrailId = some g)
      ∧ (config.guardrailId = none → cfg.guardrailId = none)
      ∧ (∀ c, config.chainId = some (some c) → cfg.chainId = some c)
      ∧ (config.chainId = none → cfg.chainId = some 56)) := by
  refine ⟨rfl, rfl, rfl, rfl, fun h => ?_, fun h => ?_, fun h => ?_, ?_, fun hg => ?_,
    fun config hOk => ?_⟩
  · simp [ProofGate.validateBody, jsOrStr, h]
  · simp [ProofGate.validateBody, jsOrIntOpt, h]
  · simp [ProofGate.validateBody, jsOrStrOpt, h]
  · cases hg : (ProofGate.validateBody cfg r).guardrailId <;>
      cases hc2 : (ProofGate.validateBody cfg r).chainId <;>
      simp [ValidateBody.json, hg, hc2]
  · cases hc2 : (ProofGate.validateBody cfg r).chainId <;>
      simp [ValidateBody.json, hg, hc2]
  · unfold ProofGate.construct at hOk
    split at hOk
    · cases hOk
    · split at hOk
      · cases hOk
      · cases hOk
        refine ⟨fun g hg2 => ?_, fun hg2 => ?_, fun c hc2 => ?_, fun hc2 => ?_⟩ <;>
          simp [spreadField, spreadFieldNoDefault, *]

/-- Input configuration with construction-time overrides for both the
chain id and the guardrail id, for the C3 witness. -/
def c3cfgOverride : ProofGateConfig :=
  ProofGateConfig.mk (some "pg_c3w") none (some (some 8453)) (some (some "gr_7")) none

/-- The merged configuration produced from c3cfgOverride. -/
def c3mOverride : MergedConfig :=
  MergedConfig.mk (some "pg_c3w") (some "https://www.proofgate.xyz/api")
    (some 8453) (some "gr_7") (some 30000)

/-- Witness for C3 (amended): with caller overrides chainId 8453 and
guardrailId gr_7 and a request omitting both, the transmitted body falls
back to the overrides, which construction carried into the merged
configuration, and value transmits as 0; and for the client constructed
without any guardrail the serialized body drops the guardrailId key and
has five fields. -/
theorem C3_validate_body_witness :
    (ProofGate.validateBody c3mOverride c3req).chainId = c3mOverride.chainId
  ∧ (ProofGate.validateBody c3mOverride c3req).guardrailId = c3mOverride.guardrailId
  ∧ (ProofGate.validateBody c3mOverride c3req).value = "0"
  ∧ c3mOverride.chainId = some 8453
  ∧ c3mOverride.guardrailId = some "gr_7"
  ∧ ("guardrailId" ∉ (ProofGate.validateBody c3m c3req).json.map Prod.fst)
  ∧ ((ProofGate.validateBody c3m c3req).json.map Prod.fst).length = 5 :=
  ⟨(C3_validate_body c3mOverride c3req c3transport []).2.2.2.2.2.1 (by decide),
   (C3_validate_body c3mOverride c3req c3transport []).2.2.2.2.2.2.1 (by decide),
   (C3_validate_body c3mOverride c3req c3transport []).2.2.2.2.1 (by decide),
   ((C3_validate_body c3mOverride c3req c3transport []).2.2.2.2.2.2.2.2.2 c3cfgOverride
      (by decide)).2.2.1 8453 (by decide),
   ((C3_validate_body c3mOverride c3req c3transport []).2.2.2.2.2.2.2.2.2 c3cfgOverride
      (by decide)).1 "gr_7" (by decide),
   ((C3_validate_body c3m c3req c3transport []).2.2.2.2.2.2.2.2.1 (by decide)).1,
   ((C3_validate_body c3m c3req c3transport []).2.2.2.2.2.2.2.2.1 (by decide)).2 (by decide)⟩

-- =============================================================================
-- Claim C4
-- =============================================================================

/-- A syntactically complete but empty validation response, standing for
the typed view of an arbitrary JSON body. -/
def stubValidateResponse : ValidateResponse :=
  ValidateResponse.mk "" "" "" "" false [] 0 false "" "" false

/-- A merged configuration used against C4. -/
def c4cfg : MergedConfig :=
  MergedConfig.mk (some "pg_c4") (some "https://www.proofgate.xyz/api")
    (some 56) none (some 30000)

/-- A transport answering HTTP 500 with a JSON body whose error field is
present but empty. -/
def c4transportEmptyError : Nat → TransportOutcome ValidateResponse :=
  fun _ => TransportOutcome.response 500
    (ParseResult.parsed (ParsedJson.mk stubValidateResponse (some "") none))

/-- C4 counterexample: on an HTTP 500 whose JSON body carries an error
field that is present but equal to the empty string, the raised message is
the fallback HTTP 500, not the present error field as the claim states. -/
theorem C4_counterexample :
    (ProofGate.request c4cfg "/validate" (some "POST") none
        c4transportEmptyError []).result =
      .error (ProofGateError.mk "HTTP 500" "API_ERROR" (some 500) none)
    ∧ "HTTP 500" ≠ "" :=
  ⟨by decide, by decide⟩

/-- C4 (amended): whenever the service responds with a non-success HTTP
status and a body that parses as JSON, the operation fails with API_ERROR
carrying that status; the message equals the error field of the body when
present and non-empty, else the message field when present and non-empty,
else the string HTTP followed by the status. -/
theorem C4_api_error {α : Type} (cfg : MergedConfig) (path : String)
    (method : Option String) (body : Option (List (String × JsonVal)))
    (transport : Nat → TransportOutcome α) (sent : List HttpCall)
    (status : Nat) (d : ParsedJson α)
    (hOut : transport sent.length = TransportOutcome.response status (ParseResult.parsed d))
    (hBad : ¬ (200 ≤ status ∧ status ≤ 299)) :
    (ProofGate.request cfg path method body transport sent).result =
      .error (ProofGateError.mk
        (apiErrorMessage status d.errorField d.messageField)
        "API_ERROR" (some status) none)
  ∧ (∀ s, d.errorField = some s → s ≠ "" →
      apiErrorMessage status d.errorField d.messageField = s)
  ∧ ((d.errorField = none ∨ d.errorField = some "") →
      ∀ s, d.messageField = some s → s ≠ "" →
        apiErrorMessage status d.errorField d.messageField = s)
  ∧ ((d.errorField = none ∨ d.errorField = some "") →
      (d.messageField = none ∨ d.messageField = some "") →
      apiErrorMessage status d.errorField d.messageField =
        "HTTP " ++ toString status) := by
  refine ⟨?_, fun s hs hne => ?_, fun he s hs hne => ?_, fun he hm => ?_⟩
  · simp [ProofGate.request, hOut, hBad]
  · simp [apiErrorMessage, jsOrStr, hs, hne]
  · rcases he with he | he <;> simp [apiErrorMessage, jsOrStr, he, hs, hne]
  · rcases he with he | he <;> rcases hm with hm | hm <;>
      simp [apiErrorMessage, jsOrStr, he, hm]

/-- A transport answering HTTP 429 with the JSON body carrying the error
text rate limited. -/
def c4transport429 : Nat → TransportOutcome ValidateResponse :=
  fun _ => TransportOutcome.response 429
    (ParseResult.parsed (ParsedJson.mk stubValidateResponse (some "rate limited") none))

/-- Witness for C4 (amended): a mocked HTTP 429 with error text rate
limited fails with API_ERROR, status 429 and message rate limited. -/
theorem C4_api_error_witness :
    (ProofGate.request c4cfg "/validate" (some "POST") none c4transport429 []).result =
      .error (ProofGateError.mk "rate limited" "API_ERROR" (some 429) none) :=
  (C4_api_error c4cfg "/validate" (some "POST") none c4transport429 []
    429 (ParsedJson.mk stubValidateResponse (some "rate limited") none)
    (by decide) (by decide)).1

-- =============================================================================
-- Claim C5
-- =============================================================================

/-- C5 (confirmed): whenever the armed timeout expires before the
transport yields a response, the operation fails with error code TIMEOUT;
and on every completion path whatsoever the armed timer is cleared by the
finally block, leaving no dangling scheduled work. -/
theorem C5_timeout_and_timer_cleared {α : Type} (cfg : MergedConfig)
    (path : String) (method : Option String)
    (body : Option (List (String × JsonVal)))
    (transport : Nat → TransportOutcome α) (sent : List HttpCall) :
    (ProofGate.request cfg path method body transport sent).timerCleared = true
  ∧ (transport sent.length = TransportOutcome.timeout →
      (ProofGate.request cfg path method body transport sent).result =
        .error (ProofGateError.mk "Request timeout" "TIMEOUT" none none)) := by
  refine ⟨rfl, fun h => ?_⟩
  simp [ProofGate.request, h]

/-- A transport that never responds: the armed timeout always expires. -/
def c5transport : Nat → TransportOutcome ValidateResponse :=
  fun _ => TransportOutcome.timeout

/-- Witness for C5: on a transport that never responds, the operation
fails with TIMEOUT and the timer is cleared. -/
theorem C5_timeout_and_timer_cleared_witness :
    (ProofGate.request c4cfg "/validate" (some "POST") none c5transport []).timerCleared = true
  ∧ (ProofGate.request c4cfg "/validate" (some "POST") none c5transport []).result =
      .error (ProofGateError.mk "Request timeout" "TIMEOUT" none none) :=
  ⟨(C5_timeout_and_timer_cleared c4cfg "/validate" (some "POST") none c5transport []).1,
   (C5_timeout_and_timer_cleared c4cfg "/validate" (some "POST") none c5transport []).2 rfl⟩

-- =============================================================================
-- Claim C6
-- =============================================================================

/-- Percent decoding is the identity on character lists containing no
percent sign. -/
theorem percentDecodeList_no_pct : (l : List Char) → (∀ c ∈ l, c ≠ '%') →
    percentDecodeList l = l
  | [], _ => rfl
  | [_], _ => rfl
  | [_, _], _ => rfl
  | c :: h1 :: h2 :: rest, h => by
      have hc : c ≠ '%' := h c (by simp)
      have hrec := percentDecodeList_no_pct (h1 :: h2 :: rest)
        (fun d hd => h d (List.mem_cons_of_mem _ hd))
      simp only [percentDecodeList]
      rw [if_neg hc, hrec]

/-- C6 counterexample: getEvidence places the validation id into the URL
verbatim, with no escaping; for the id a%20b the segment on the wire is
a%20b itself, which the receiving server percent-decodes to a b, not to
the literal id supplied by the caller. -/
theorem C6_counterexample :
    ProofGate.getEvidencePath "a%20b" = "/evidence/" ++ "a%20b"
  ∧ percentDecode "a%20b" = "a b"
  ∧ "a b" ≠ "a%20b" :=
  ⟨by decide, by decide, by decide⟩

/-- C6 (amended): checkAgent and getEvidence perform no URL-escaping at
all; the wallet address and validation id are interpolated verbatim into
the query string and path.  Consequently an id free of percent signs is
recovered literally by the server after standard percent decoding, but
ids containing reserved URL characters such as percent escapes are not
protected and may decode to a different string on the server. -/
theorem C6_no_escaping (wallet validationId : String)
    (hW : ∀ c ∈ wallet.data, c ≠ '%')
    (hV : ∀ c ∈ validationId.data, c ≠ '%') :
    ProofGate.checkAgentPath wallet = "/agents/check?wallet=" ++ wallet
  ∧ ProofGate.getEvidencePath validationId = "/evidence/" ++ validationId
  ∧ percentDecode wallet = wallet
  ∧ percentDecode validationId = validationId := by
  refine ⟨rfl, rfl, ?_, ?_⟩
  · show String.mk (percentDecodeList wallet.data) = wallet
    rw [percentDecodeList_no_pct wallet.data hW]
  · show String.mk (percentDecodeList validationId.data) = validationId
    rw [percentDecodeList_no_pct validationId.data hV]

/-- Witness for C6 (amended): a hexadecimal wallet address and an
ordinary validation id contain no percent sign, are interpolated
verbatim, and survive server-side decoding literally. -/
theorem C6_no_escaping_witness :
    ProofGate.checkAgentPath "0xAbC123" = "/agents/check?wallet=" ++ "0xAbC123"
  ∧ ProofGate.getEvidencePath "val_abc123" = "/evidence/" ++ "val_abc123"
  ∧ percentDecode "0xAbC123" = "0xAbC123"
  ∧ percentDecode "val_abc123" = "val_abc123" :=
  C6_no_escaping "0xAbC123" "val_abc123" (by decide) (by decide)

-- =============================================================================
-- Claim C7
-- =============================================================================

/-- Configuration supplying an explicit zero timeout, accepted by the
constructor. -/
def c7cfgZero : ProofGateConfig :=
  ProofGateConfig.mk (some "pg_c7") none none none (some (some 0))

/-- C7 counterexample: construction accepts a configuration whose timeout
is 0, and the merged timeout of the constructed client is 0, which is not
strictly positive; the constructor never validates the timeout. -/
theorem C7_counterexample :
    ProofGate.construct c7cfgZero =
      .ok (MergedConfig.mk (some "pg_c7") (some "https://www.proofgate.xyz/api")
        (some 56) none (some 0))
    ∧ ¬ ((0 : Int) < 0) :=
  ⟨by decide, by decide⟩

/-- C7 (amended): the constructor does not validate the timeout, so a
caller-supplied non-positive timeout is accepted; however for every
accepted configuration that does not supply a timeout key, the merged
timeout is the default 30000 milliseconds, which is strictly positive and
finite. -/
theorem C7_default_timeout_positive (config : ProofGateConfig) (m : MergedConfig)
    (hT : config.timeout = none)
    (hOk : ProofGate.construct config = .ok m) :
    m.timeout = some 30000 ∧ (0 : Int) < 30000 := by
  unfold ProofGate.construct at hOk
  split at hOk
  · cases hOk
  · split at hOk
    · cases hOk
    · cases hOk
      exact ⟨by simp [spreadField, hT], by decide⟩

/-- Configuration without a timeout key, for the C7 witness. -/
def c7cfgDefault : ProofGateConfig :=
  ProofGateConfig.mk (some "pg_c7w") none none none none

/-- The merged configuration produced from c7cfgDefault. -/
def c7mDefault : MergedConfig :=
  MergedConfig.mk (some "pg_c7w") (some "https://www.proofgate.xyz/api")
    (some 56) none (some 30000)

/-- Witness for C7 (amended): a client constructed without a timeout key
gets the positive default 30000. -/
theorem C7_default_timeout_positive_witness :
    c7mDefault.timeout = some 30000 ∧ (0 : Int) < 30000 :=
  C7_default_timeout_positive c7cfgDefault c7mDefault (by decide) (by decide)

-- =============================================================================
-- Claim C8
-- =============================================================================

/-- C8 (confirmed): construction merges the caller configuration over the
documented defaults into a newly allocated configuration object without
writing to the caller object, and validate builds its body as a new
object without writing to the caller request: after either step the
caller-visible cell still holds exactly its old value, while the fresh
cell holds the merged configuration (resp. the built body). -/
theorem C8_no_caller_mutation (h : JsHeap) (config : ProofGateConfig)
    (cfg : MergedConfig) (r : ValidateRequest) (m : MergedConfig)
    (inAddr fresh reqAddr fresh2 : Nat)
    (hIn : h inAddr = some (JsObj.cfgIn config))
    (hFresh : h fresh = none)
    (hOk : ProofGate.construct config = .ok m)
    (hReq : h reqAddr = some (JsObj.valReq r))
    (hFresh2 : h fresh2 = none) :
    ProofGate.constructHeap h config fresh =
      .ok (writeHeap h fresh (JsObj.merged m), fresh)
  ∧ writeHeap h fresh (JsObj.merged m) inAddr = some (JsObj.cfgIn config)
  ∧ writeHeap h fresh (JsObj.merged m) fresh = some (JsObj.merged m)
  ∧ (ProofGate.validateBodyHeap h cfg r fresh2).1 reqAddr = some (JsObj.valReq r)
  ∧ (ProofGate.validateBodyHeap h cfg r fresh2).1 fresh2 =
      some (JsObj.valBody (ProofGate.validateBody cfg r)) := by
  have hne : inAddr ≠ fresh := by
    intro hEq
    rw [hEq, hFresh] at hIn
    cases hIn
  have hne2 : reqAddr ≠ fresh2 := by
    intro hEq
    rw [hEq, hFresh2] at hReq
    cases hReq
  refine ⟨?_, ?_, ?_, ?_, ?_⟩
  · simp [ProofGate.constructHeap, hOk]
  · simp [writeHeap, hne, hIn]
  · simp [writeHeap]
  · simp [ProofGate.validateBodyHeap, writeHeap, hne2, hReq]
  · simp [ProofGate.validateBodyHeap, writeHeap]

/-- A two-object heap for the C8 witness: the caller configuration at
address 0 and the caller request at address 2. -/
def c8heap : JsHeap :=
  fun x =>
    if x = 0 then some (JsObj.cfgIn c3cfgIn)
    else if x = 2 then some (JsObj.valReq c3req)
    else none

/-- Witness for C8: running the heap-instrumented constructor and body
construction on the concrete heap leaves the caller cells untouched and
fills the fresh cells. -/
theorem C8_no_caller_mutation_witness :
    ProofGate.constructHeap c8heap c3cfgIn 1 =
      .ok (writeHeap c8heap 1 (JsObj.merged c3m), 1)
  ∧ writeHeap c8heap 1 (JsObj.merged c3m) 0 = some (JsObj.cfgIn c3cfgIn)
  ∧ writeHeap c8heap 1 (JsObj.merged c3m) 1 = some (JsObj.merged c3m)
  ∧ (ProofGate.validateBodyHeap c8heap c3m c3req 3).1 2 = some (JsObj.valReq c3req)
  ∧ (ProofGate.validateBodyHeap c8heap c3m c3req 3).1 3 =
      some (JsObj.valBody (ProofGate.validateBody c3m c3req)) :=
  C8_no_caller_mutation c8heap c3cfgIn c3m c3req c3m 0 1 2 3
    (by decide) (by decide) (by decide) (by decide) (by decide)

-- =============================================================================
-- Claim C9
-- =============================================================================

/-- C9 (confirmed): validate treats every falsy supplied field as omitted.
A value equal to the empty string transmits as the string 0; a chainId
explicitly 0 falls back to the configured default; a guardrailId equal to
the empty string falls back to the configured default. -/
theorem C9_falsy_fields_treated_as_omitted (cfg : MergedConfig) (r : ValidateRequest) :
    (r.value = some "" → (ProofGate.validateBody cfg r).value = "0")
  ∧ (r.chainId = some 0 → (ProofGate.validateBody cfg r).chainId = cfg.chainId)
  ∧ (r.guardrailId = some "" →
      (ProofGate.validateBody cfg r).guardrailId = cfg.guardrailId) := by
  refine ⟨fun h => ?_, fun h => ?_, fun h => ?_⟩
  · simp [ProofGate.validateBody, jsOrStr, h]
  · simp [ProofGate.validateBody, jsOrIntOpt, h]
  · simp [ProofGate.validateBody, jsOrStrOpt, h]

/-- A merged configuration with distinctive defaults, for the C9 witness. -/
def c9cfg : MergedConfig :=
  MergedConfig.mk (some "pg_c9") (some "https://www.proofgate.xyz/api")
    (some 137) (some "gr_c9") (some 30000)

/-- A request supplying falsy values explicitly: empty value, chainId 0,
empty guardrailId. -/
def c9req : ValidateRequest :=
  ValidateRequest.mk "0xa" "0xb" "0xc" (some "") (some "") (some 0)

/-- Witness for C9: with the falsy fields supplied explicitly, the body
carries the string 0 and the configured defaults 137 and gr_c9. -/
theorem C9_falsy_fields_treated_as_omitted_witness :
    (ProofGate.validateBody c9cfg c9req).value = "0"
  ∧ (ProofGate.validateBody c9cfg c9req).chainId = c9cfg.chainId
  ∧ (ProofGate.validateBody c9cfg c9req).guardrailId = c9cfg.guardrailId :=
  ⟨(C9_falsy_fields_treated_as_omitted c9cfg c9req).1 rfl,
   (C9_falsy_fields_treated_as_omitted c9cfg c9req).2.1 rfl,
   (C9_falsy_fields_treated_as_omitted c9cfg c9req).2.2 rfl⟩

-- =============================================================================
-- Claim C10
-- =============================================================================

/-- Configuration whose optional keys are all present with the value
`undefined`, for C10. -/
def c10cfg : ProofGateConfig :=
  ProofGateConfig.mk (some "pg_c10") (some none) (some none) none (some none)

/-- C10 (confirmed): the spread-based merge lets a key that is present but
set to `undefined` override the documented default: the concrete accepted
configuration c10cfg, whose baseUrl, chainId and timeout keys are present
with value `undefined`, yields a merged configuration in which these
fields are `undefined` rather than the default endpoint, 56, or 30000;
and for every accepted configuration the default is applied exactly when
the key is entirely absent, while a present key passes its value through,
`undefined` included. -/
theorem C10_spread_undefined_overrides (config : ProofGateConfig) (m : MergedConfig)
    (hOk : ProofGate.construct config = .ok m) :
    (config.chainId = none → m.chainId = some 56)
  ∧ (config.chainId = some none → m.chainId = none)
  ∧ (∀ v, config.chainId = some (some v) → m.chainId = some v)
  ∧ (config.baseUrl = none → m.baseUrl = some "https://www.proofgate.xyz/api")
  ∧ (config.baseUrl = some none → m.baseUrl = none)
  ∧ (∀ u, config.baseUrl = some (some u) → m.baseUrl = some u)
  ∧ (config.timeout = none → m.timeout = some 30000)
  ∧ (config.timeout = some none → m.timeout = none)
  ∧ (∀ t, config.timeout = some (some t) → m.timeout = some t)
  ∧ ProofGate.construct c10cfg =
      .ok (MergedConfig.mk (some "pg_c10") none none none none) := by
  unfold ProofGate.construct at hOk
  split at hOk
  · cases hOk
  · split at hOk
    · cases hOk
    · cases hOk
      refine ⟨?_, ?_, ?_, ?_, ?_, ?_, ?_, ?_, ?_, by decide⟩ <;>
        intros <;> simp [spreadField, *]

/-- The merged configuration produced from c10cfg: every defaulted field
overridden to `undefined`. -/
def c10merged : MergedConfig :=
  MergedConfig.mk (some "pg_c10") none none none none

/-- Witness for C10: the accepted configuration c10cfg produces a merged
chainId of `undefined` rather than the default 56. -/
theorem C10_spread_undefined_overrides_witness :
    c10merged.chainId = none ∧ c10merged.baseUrl = none ∧ c10merged.timeout = none :=
  ⟨(C10_spread_undefined_overrides c10cfg c10merged (by decide)).2.1 rfl,
   (C10_spread_undefined_overrides c10cfg c10merged (by decide)).2.2.2.2.1 rfl,
   (C10_spread_undefined_overrides c10cfg c10merged (by decide)).2.2.2.2.2.2.2.1 rfl⟩
